import Mathlib

/-!
Shallow embedding of the `sebi_api` repository (FastAPI service over a MySQL
table of IPO filing records) and proofs about its request-handling logic.

Source files embedded: `main.py` (handlers and routing), `auth.py`
(`verify_api_key`), `config.py` (environment defaults), `database.py`
(connection open/close).  The relational store itself is external: handlers
take the store's answers (row lists, counts) as oracle inputs, and the
queries and bound parameters the handlers send are recorded explicitly.
-/

namespace SebiApi

/-- A row of the `ipos` table: numeric identifier, filing date, company name
and PDF-URL text, matching the columns the queries in `main.py` touch. -/
structure Row where
  id : Int
  filing_date : String
  company_name : String
  pdf_urls : String
deriving DecidableEq, Repr

/-- The record shape the handlers return for one IPO:
`{filing_date, company_name, pdf_url}` (main.py lines 128-135, 190-194,
228-234). -/
structure IpoOut where
  filing_date : String
  company_name : String
  pdf_url : String
deriving DecidableEq, Repr

/-- The response-shaping step applied to each fetched row: renames `pdf_urls`
to `pdf_url`, keeps the other fields. -/
def formatRow (r : Row) : IpoOut :=
  { filing_date := r.filing_date, company_name := r.company_name, pdf_url := r.pdf_urls }

/-- A value bound as a SQL parameter (mysql-connector `%s` placeholder):
either a string (filters) or an integer (limit/offset/id). -/
inductive SqlParam where
  | pstr : String → SqlParam
  | pint : Int → SqlParam
deriving DecidableEq, Repr

/-- One `cursor.execute(text, params)` call: the SQL text and the bound
parameters, in order. -/
structure StoreCall where
  text : String
  params : List SqlParam
deriving DecidableEq, Repr

/-- Python truthiness of an `Optional[str]`: `None` and the empty string are
falsy, every other string is truthy.  `main.py` guards the filter clauses
with `if company:` / `if date:` (lines 104, 108). -/
def truthy : Option String → Bool
  | none => false
  | some s => s != ""

/-- The anchor query of `get_ipos` (main.py line 101). -/
def baseQuery : String := "SELECT filing_date, company_name, pdf_urls FROM ipos WHERE 1=1"

/-- Query construction of `get_ipos` (main.py lines 101-111): append the
`company_name LIKE` clause and the `%company%` parameter when `company` is
truthy, then the `filing_date =` clause and the `date` parameter when `date`
is truthy.  User values go only into the parameter list, never into the
text. -/
def filterQuery (company date : Option String) : String × List SqlParam :=
  (baseQuery
      ++ (if truthy company then " AND company_name LIKE %s" else "")
      ++ (if truthy date then " AND filing_date = %s" else ""),
   (if truthy company then [SqlParam.pstr ("%" ++ company.getD "" ++ "%")] else [])
      ++ (if truthy date then [SqlParam.pstr (date.getD "")] else []))

/-- Replacement loop over character lists: Python `str.replace` semantics
(replace every non-overlapping occurrence, scanning left to right).  The
fuel argument bounds the recursion; `pyReplace` supplies enough fuel for any
nonempty pattern. -/
def replaceAux : Nat → List Char → List Char → List Char → List Char
  | 0, _, _, s => s
  | _ + 1, _, _, [] => []
  | fuel + 1, pat, rep, c :: rest =>
    if pat.isPrefixOf (c :: rest) then
      rep ++ replaceAux fuel pat rep ((c :: rest).drop pat.length)
    else
      c :: replaceAux fuel pat rep rest

/-- Python `s.replace(pat, rep)` for a nonempty pattern. -/
def pyReplace (s pat rep : String) : String :=
  String.mk (replaceAux s.data.length pat.data rep.data s.data)

/-- The COUNT query of `get_ipos` (main.py line 114): the list query's text
with the select list replaced by `COUNT(*)`, sharing its WHERE clause. -/
def count_query (company date : Option String) : String :=
  pyReplace (filterQuery company date).1
    ("SELECT filing_date, company_name, pdf_urls") ("SELECT COUNT(*)")

/-- Spec-side decomposition: the part of the query text after the select
list — the FROM/WHERE clause the list and COUNT queries share. -/
def whereSuffix (company date : Option String) : String :=
  " FROM ipos WHERE 1=1"
    ++ (if truthy company then " AND company_name LIKE %s" else "")
    ++ (if truthy date then " AND filing_date = %s" else "")

/-- Outcome of a handler: a JSON-serialisable body, or an `HTTPException`
with status code and detail. -/
inductive Outcome (α : Type) where
  | ok : α → Outcome α
  | httpError : Nat → String → Outcome α
deriving DecidableEq, Repr

/-- HTTP status of an outcome (200 on a plain return). -/
def statusOf {α : Type} : Outcome α → Nat
  | Outcome.ok _ => 200
  | Outcome.httpError code _ => code

/-- One handler invocation: its outcome, whether a store connection was
obtained, whether every obtained connection was closed before the handler
returned, and the `cursor.execute` calls issued. -/
structure HandlerRun (α : Type) where
  resp : Outcome α
  connOpened : Bool
  connClosed : Bool
  calls : List StoreCall
deriving DecidableEq, Repr

/-- Body of the `/ipos` response (main.py lines 142-148). -/
structure IposResponse where
  total : Nat
  page : Nat
  limit : Nat
  total_pages : Nat
  data : List IpoOut
deriving DecidableEq, Repr

/-- `get_ipos` (main.py lines 74-153).  `connOk` is whether
`get_database_connection()` returned a connection; `qFails` is whether the
`try` body raises (caught at line 150, which closes the connection and
re-raises as a 500).  `total` is the store's answer to the COUNT query and
`rows` its answer to the page query — the store is external.  On success the
handler computes `offset = (page - 1) * limit`, runs the COUNT query with the
filter parameters, runs the page query with the filter parameters plus
`limit` and `offset`, and returns totals with
`total_pages = (total + limit - 1) // limit`.  FastAPI validates
`page ≥ 1` and `1 ≤ limit ≤ 500`, so ℕ subtraction agrees with Python. -/
def get_ipos (connOk qFails : Bool) (page limit : Nat) (company date : Option String)
    (total : Nat) (rows : List Row) : HandlerRun IposResponse :=
  if !connOk then
    ⟨Outcome.httpError 500 ("Database connection failed"), false, false, []⟩
  else if qFails then
    ⟨Outcome.httpError 500 ("Error: query failed"), true, true, []⟩
  else
    ⟨Outcome.ok
        { total := total, page := page, limit := limit,
          total_pages := (total + limit - 1) / limit,
          data := rows.map formatRow },
      true, true,
      [⟨count_query company date, (filterQuery company date).2⟩,
       ⟨(filterQuery company date).1 ++ " ORDER BY id DESC LIMIT %s OFFSET %s",
        (filterQuery company date).2
          ++ [SqlParam.pint (limit : Int), SqlParam.pint (((page - 1) * limit : Nat) : Int)]⟩]⟩

/-- `get_ipo_by_id` (main.py lines 155-199): fetch one row by id; close the
connection, then 404 when no row matched, else return the formatted record.
`db.find?` models `fetchone` on `WHERE id = %s` (ids are unique per the data
model).  The 404 `HTTPException` is re-raised unchanged by the
`except HTTPException` clause. -/
def get_ipo_by_id (connOk qFails : Bool) (ipo_id : Int) (db : List Row) : HandlerRun IpoOut :=
  if !connOk then
    ⟨Outcome.httpError 500 ("Database connection failed"), false, false, []⟩
  else if qFails then
    ⟨Outcome.httpError 500 ("Error: query failed"), true, true, []⟩
  else
    match db.find? (fun r => r.id == ipo_id) with
    | none =>
        ⟨Outcome.httpError 404 ("IPO not found"), true, true,
         [⟨"SELECT filing_date, company_name, pdf_urls FROM ipos WHERE id = %s",
           [SqlParam.pint ipo_id]⟩]⟩
    | some r =>
        ⟨Outcome.ok (formatRow r), true, true,
         [⟨"SELECT filing_date, company_name, pdf_urls FROM ipos WHERE id = %s",
           [SqlParam.pint ipo_id]⟩]⟩

/-- Body of the `/ipos/latest` response (main.py lines 236-239). -/
structure LatestResponse where
  count : Nat
  data : List IpoOut
deriving DecidableEq, Repr

/-- `get_latest_ipos` (main.py lines 201-248): run the unfiltered query
ordered by id descending bound by `limit`; `rows` is the store's answer.
Returns `{count: len(ipos), data: ipos}`. -/
def get_latest_ipos (connOk qFails : Bool) (limit : Nat) (rows : List Row) :
    HandlerRun LatestResponse :=
  if !connOk then
    ⟨Outcome.httpError 500 ("Database connection failed"), false, false, []⟩
  else if qFails then
    ⟨Outcome.httpError 500 ("Error: query failed"), true, true, []⟩
  else
    ⟨Outcome.ok { count := (rows.map formatRow).length, data := rows.map formatRow },
      true, true,
      [⟨"SELECT filing_date, company_name, pdf_urls FROM ipos ORDER BY id DESC LIMIT %s",
        [SqlParam.pint (limit : Int)]⟩]⟩

/-- `get_database_connection` (database.py lines 8-16): `connectRaises`
models `mysql.connector.connect` raising (caught, logged, `None` returned);
when the connect call succeeds but `is_connected()` is false the function
falls through and also returns `None`. -/
def get_database_connection (connectRaises isConn : Bool) : Option Unit :=
  if connectRaises then none
  else if isConn then some ()
  else none

/-- Body of the `/health` response. -/
structure HealthResponse where
  status : String
  database : String
deriving DecidableEq, Repr

/-- `health_check` (main.py lines 63-71): try to open a connection; close it
and report healthy/connected on success, unhealthy/disconnected otherwise.
Never raises an `HTTPException`. -/
def health_check (connectRaises isConn : Bool) : HandlerRun HealthResponse :=
  match get_database_connection connectRaises isConn with
  | some _ => ⟨Outcome.ok { status := "healthy", database := "connected" }, true, true, []⟩
  | none => ⟨Outcome.ok { status := "unhealthy", database := "disconnected" }, false, false, []⟩

/-- `verify_api_key` (auth.py lines 4-14), given the configured key and a
header value that the framework did deliver: 401 unless the value equals the
key exactly, else the value unchanged. -/
def verify_api_key (api_key_config x_api_key : String) : Outcome String :=
  if x_api_key != api_key_config then
    Outcome.httpError 401 ("Invalid or missing API key")
  else
    Outcome.ok x_api_key

/-- FastAPI semantics of the `Header(...)` (required, no default) parameter
declared by `verify_api_key`: a request missing the header fails request
validation with status 422 before the dependency body runs; a present header
is handed to the dependency. -/
def requiredHeader (x_api_key : Option String) : Outcome String :=
  match x_api_key with
  | none => Outcome.httpError 422 ("Field required")
  | some v => Outcome.ok v

/-- The auth gate a protected endpoint applies to the optional `X-API-Key`
header of a request: framework extraction of the required header, then
`verify_api_key`. -/
def protectedAuth (api_key_config : String) (header : Option String) : Outcome String :=
  match requiredHeader header with
  | Outcome.ok v => verify_api_key api_key_config v
  | Outcome.httpError code detail => Outcome.httpError code detail

/-- `API_KEY` (config.py line 17): `os.getenv` with default. -/
def API_KEY (env : String → Option String) : String :=
  (env ("API_KEY")).getD ("123456789")

/-- Integer literal parsing: optional sign then decimal digits, accumulating
the value.  Used for Python `int(...)` on config strings and for the
`ipo_id: int` path-parameter coercion. -/
def digitsValAux : List Char → Nat → Option Nat
  | [], acc => some acc
  | ch :: rest, acc =>
    if ch.isDigit then digitsValAux rest (acc * 10 + (ch.toNat - 48))
    else none

/-- Parse a string as an integer (optional sign, decimal digits); `none`
models Python/pydantic rejecting the value. -/
def pyInt (s : String) : Option Int :=
  match s.data with
  | [] => none
  | '-' :: rest =>
    match rest with
    | [] => none
    | _ => (digitsValAux rest 0).map (fun n => -(n : Int))
  | '+' :: rest =>
    match rest with
    | [] => none
    | _ => (digitsValAux rest 0).map (fun n => (n : Int))
  | l => (digitsValAux l 0).map (fun n => (n : Int))

/-- `DB_CONFIG['host']` (config.py line 10). -/
def DB_HOST (env : String → Option String) : String := (env ("DB_HOST")).getD ("localhost")

/-- `DB_CONFIG['user']` (config.py line 11). -/
def DB_USER (env : String → Option String) : String := (env ("DB_USER")).getD ("root")

/-- `DB_CONFIG['password']` (config.py line 12): `os.getenv` with no
default — `None` when unset. -/
def DB_PASSWORD (env : String → Option String) : Option String := env ("DB_PASSWORD")

/-- `DB_CONFIG['port']` (config.py line 13): `int(os.getenv('DB_PORT', 3306))`;
when the variable is unset `int` is applied to the default `3306`; a present
malformed value makes `int` raise, modelled as `none`. -/
def DB_PORT (env : String → Option String) : Option Int :=
  match env ("DB_PORT") with
  | none => some 3306
  | some s => pyInt s

/-- `DB_CONFIG['database']` (config.py line 14). -/
def DB_NAME (env : String → Option String) : String := (env ("DB_NAME")).getD ("sebi_ipo_db")

/-- The routes of the application. -/
inductive Route where
  | home
  | health
  | iposList
  | ipoById
  | iposLatest
deriving DecidableEq, Repr

/-- A route pattern: one entry per path segment, `some lit` for a literal
segment, `none` for a `{param}` segment. -/
def RoutePattern : Type := List (Option String)

/-- The route table in registration order, as the decorators appear in
`main.py`: `/` (line 46), `/health` (line 62), `/ipos` (line 74),
`/ipos/{ipo_id}` (line 155), `/ipos/latest` (line 201). -/
def routeTable : List (Route × RoutePattern) :=
  [(Route.home, []),
   (Route.health, [some ("health")]),
   (Route.iposList, [some ("ipos")]),
   (Route.ipoById, [some ("ipos"), none]),
   (Route.iposLatest, [some ("ipos"), some ("latest")])]

/-- One pattern segment against one path segment: a literal must match
exactly; a `{param}` segment (Starlette default `str` converter, regex
`[^/]+`) matches any nonempty segment. -/
def segMatches : Option String → String → Bool
  | some lit, s => lit == s
  | none, s => s != ""

/-- A whole pattern against a whole path. -/
def patMatches : RoutePattern → List String → Bool
  | [], [] => true
  | p :: ps, s :: ss => segMatches p s && patMatches ps ss
  | _, _ => false

/-- Starlette routing: the first registered route whose pattern matches the
request path wins. -/
def matchRoute (segs : List String) : Option Route :=
  (routeTable.find? (fun rp => patMatches rp.2 segs)).map Prod.fst

/-- The HTTP status the application produces for an authenticated
`GET /ipos/<seg>` request: route lookup per `matchRoute`; a match on
`/ipos/{ipo_id}` coerces the segment with `pyInt` (pydantic `ipo_id: int`),
failing request validation with 422 when the segment is not an integer;
a match on `/ipos/latest` would run `get_latest_ipos`.  `db` is the table,
`latestRows` the store's answer to the latest query, `connOk`/`qFails` as in
the handlers. -/
def iposSubStatus (seg : String) (connOk qFails : Bool) (db latestRows : List Row) : Nat :=
  match matchRoute [("ipos" : String), seg] with
  | some Route.ipoById =>
    match pyInt seg with
    | none => 422
    | some n => statusOf (get_ipo_by_id connOk qFails n db).resp
  | some Route.iposLatest => statusOf (get_latest_ipos connOk qFails 10 latestRows).resp
  | _ => 404

/-- A concrete six-row table, identifiers descending as the store would
return them for `ORDER BY id DESC`. -/
def exDb : List Row :=
  [⟨6, "06/01/2024", "Zeta", "http://x/6"⟩,
   ⟨5, "05/01/2024", "Echo", "http://x/5"⟩,
   ⟨4, "04/01/2024", "Delta", "http://x/4"⟩,
   ⟨3, "03/01/2024", "Gamma", "http://x/3"⟩,
   ⟨2, "02/01/2024", "Beta", "http://x/2"⟩,
   ⟨1, "01/01/2024", "Acme", "http://x/1"⟩]

/-- The first five rows of `exDb`: the store's answer to the latest query
with limit 5. -/
def exRows5 : List Row := exDb.take 5

/-- C8: `/health` returns `{status: "healthy", database: "connected"}` when a
store connection can be opened and `{status: "unhealthy", database:
"disconnected"}` when it cannot, and never raises an HTTP error status. -/
theorem c8_health_check_reports_without_error (connectRaises isConn : Bool) :
    (health_check connectRaises isConn).resp
      = Outcome.ok (if (get_database_connection connectRaises isConn).isSome
          then { status := "healthy", database := "connected" }
          else { status := "unhealthy", database := "disconnected" })
    ∧ ∀ (code : Nat) (detail : String),
        (health_check connectRaises isConn).resp ≠ Outcome.httpError code detail := by
  cases connectRaises <;> cases isConn <;>
    simp [health_check, get_database_connection]

/-- C9: in every successful response of `get_latest_ipos`, the `count` field
equals the length of the `data` sequence it accompanies. -/
theorem c9_latest_count_matches_data_length (connOk qFails : Bool) (limit : Nat)
    (rows : List Row) (body : LatestResponse)
    (h : (get_latest_ipos connOk qFails limit rows).resp = Outcome.ok body) :
    body.count = body.data.length := by
  cases connOk <;> cases qFails <;> simp [get_latest_ipos] at h
  rw [← h]
  simp

/-- Witness for C9 at limit 5 over the concrete table. -/
theorem c9_latest_count_matches_data_length_witness :
    (LatestResponse.mk ((exRows5.map formatRow).length) (exRows5.map formatRow)).count
      = (LatestResponse.mk ((exRows5.map formatRow).length) (exRows5.map formatRow)).data.length :=
  c9_latest_count_matches_data_length true false 5 exRows5
    (LatestResponse.mk ((exRows5.map formatRow).length) (exRows5.map formatRow)) rfl

/-- C2 (amended): the auth gate returns the header value unchanged when it
equals the configured key and fails with 401 when a present value differs;
a request with the header absent fails framework validation with 422 before
the guard runs. -/
theorem c2_auth_guard_amended (key v : String) :
    protectedAuth key (some v)
        = (if v == key then Outcome.ok v
           else Outcome.httpError 401 ("Invalid or missing API key"))
    ∧ protectedAuth key none = Outcome.httpError 422 ("Field required") := by
  constructor
  · by_cases h : v = key
    · subst h
      simp [protectedAuth, requiredHeader, verify_api_key]
    · simp [protectedAuth, requiredHeader, verify_api_key, h]
  · rfl

/-- C2 counterexample to the claim as stated: a request to a protected
endpoint with the `X-API-Key` header absent is answered with status 422,
not 401. -/
theorem c2_missing_header_not_401 :
    protectedAuth ("123456789") none = Outcome.httpError 422 ("Field required")
    ∧ statusOf (protectedAuth ("123456789") none) ≠ 401 := by
  decide

/-- C10: with `API_KEY` unset the configured key defaults to `123456789`,
so presenting that value authenticates; the database defaults are host
`localhost`, user `root`, port 3306, database `sebi_ipo_db`, and no default
password. -/
theorem c10_config_defaults (env : String → Option String)
    (h1 : env ("API_KEY") = none) (h2 : env ("DB_HOST") = none)
    (h3 : env ("DB_USER") = none) (h4 : env ("DB_PORT") = none)
    (h5 : env ("DB_NAME") = none) (h6 : env ("DB_PASSWORD") = none) :
    API_KEY env = "123456789"
    ∧ verify_api_key (API_KEY env) ("123456789") = Outcome.ok ("123456789")
    ∧ DB_HOST env = "localhost"
    ∧ DB_USER env = "root"
    ∧ DB_PORT env = some 3306
    ∧ DB_NAME env = "sebi_ipo_db"
    ∧ DB_PASSWORD env = none := by
  simp [API_KEY, verify_api_key, DB_HOST, DB_USER, DB_PORT, DB_NAME, DB_PASSWORD,
    h1, h2, h3, h4, h5, h6]

/-- Witness for C10 on the empty environment. -/
theorem c10_config_defaults_witness :
    API_KEY (fun _ => none) = "123456789" :=
  (c10_config_defaults (fun _ => none) rfl rfl rfl rfl rfl rfl).1

/-- C3: for every `page ≥ 1` and `limit ∈ [1,500]` and every count the store
reports, the `/ipos` handler binds `limit` and `offset = (page - 1) * limit`
as the final parameters of the page query, and the returned `total_pages` is
the ceiling of `total / limit`: the least `n` with `total ≤ n * limit`. -/
theorem c3_ipos_offset_and_total_pages (page limit : Nat) (company date : Option String)
    (total : Nat) (rows : List Row)
    (hp : 1 ≤ page) (hl : 1 ≤ limit) (_hl500 : limit ≤ 500) :
    ((get_ipos true false page limit company date total rows).calls.map StoreCall.params)
      = [(filterQuery company date).2,
         (filterQuery company date).2
           ++ [SqlParam.pint (limit : Int),
               SqlParam.pint (((page : Int) - 1) * (limit : Int))]]
    ∧ (get_ipos true false page limit company date total rows).resp
      = Outcome.ok
          { total := total, page := page, limit := limit,
            total_pages := total ⌈/⌉ limit, data := rows.map formatRow }
    ∧ total ≤ (total ⌈/⌉ limit) * limit
    ∧ ∀ n : Nat, total ≤ n * limit → total ⌈/⌉ limit ≤ n := by
  have hlpos : 0 < limit := hl
  have hcast : (((page - 1) * limit : Nat) : Int) = ((page : Int) - 1) * (limit : Int) := by
    rw [Nat.cast_mul, Nat.cast_sub hp, Nat.cast_one]
  refine ⟨?_, rfl, ?_, ?_⟩
  · simp [get_ipos, hcast]
  · have h := le_smul_ceilDiv (a := limit) (b := total) hlpos
    rwa [smul_eq_mul, mul_comm] at h
  · intro n hn
    exact (ceilDiv_le_iff_le_smul hlpos).2 (by rwa [smul_eq_mul, mul_comm limit n])

/-- Witness for C3 at page 2, limit 3, a count of 7: the page query binds
limit 3 and offset 3. -/
theorem c3_ipos_offset_and_total_pages_witness :
    ((get_ipos true false 2 3 none none 7 []).calls.map StoreCall.params)
      = [[], [SqlParam.pint 3, SqlParam.pint 3]] :=
  ((c3_ipos_offset_and_total_pages 2 3 none none 7 []
      (by decide) (by decide) (by decide)).1).trans (by decide)

/-- C4: `GET /ipos/{id}` answers 404 when no row carries the requested
identifier, and returns exactly the matching row's record when one exists
(identifiers are unique per the data model). -/
theorem c4_get_ipo_by_id_found_and_not_found (ipo_id : Int) (db : List Row)
    (hnd : (db.map Row.id).Nodup) :
    ((∀ r ∈ db, r.id ≠ ipo_id) →
        (get_ipo_by_id true false ipo_id db).resp = Outcome.httpError 404 ("IPO not found"))
    ∧ (∀ r ∈ db, r.id = ipo_id →
        (get_ipo_by_id true false ipo_id db).resp = Outcome.ok (formatRow r)) := by
  constructor
  · intro hall
    have hf : db.find? (fun r => r.id == ipo_id) = none := by
      rw [List.find?_eq_none]
      intro x hx
      simpa using hall x hx
    simp [get_ipo_by_id, hf]
  · intro r hr hid
    have hsome : (db.find? (fun r => r.id == ipo_id)).isSome := by
      rw [List.find?_isSome]
      exact ⟨r, hr, by simp [hid]⟩
    obtain ⟨r0, hf⟩ := Option.isSome_iff_exists.mp hsome
    have hr0mem := List.mem_of_find?_eq_some hf
    have hr0p := List.find?_some hf
    have heq : r0 = r := by
      apply List.inj_on_of_nodup_map hnd hr0mem hr
      simp only [beq_iff_eq] at hr0p
      rw [hr0p, hid]
    subst heq
    simp [get_ipo_by_id, hf]

/-- Witness for C4 over the concrete table: id 2 returns Beta's record and
id 99 returns 404. -/
theorem c4_get_ipo_by_id_found_and_not_found_witness :
    (get_ipo_by_id true false 2 exDb).resp
        = Outcome.ok (formatRow ⟨2, "02/01/2024", "Beta", "http://x/2"⟩)
    ∧ (get_ipo_by_id true false 99 exDb).resp = Outcome.httpError 404 ("IPO not found") :=
  ⟨(c4_get_ipo_by_id_found_and_not_found 2 exDb (by decide)).2
      ⟨2, "02/01/2024", "Beta", "http://x/2"⟩ (by decide) rfl,
   (c4_get_ipo_by_id_found_and_not_found 99 exDb (by decide)).1 (by decide)⟩

/-- C5 (amended): two `/ipos` requests whose filters agree in Python
truthiness (company nonempty in both or in neither, likewise date) produce
identical SQL text for the page query and the COUNT query, whatever the
filter values are: user-supplied values reach the store only in the bound
parameter lists, never in the SQL string. -/
theorem c5_sql_text_independent_of_filter_values (ca da cb db : Option String)
    (hc : truthy ca = truthy cb) (hd : truthy da = truthy db) :
    (filterQuery ca da).1 = (filterQuery cb db).1
    ∧ count_query ca da = count_query cb db
    ∧ ∀ (page limit total : Nat) (rows : List Row),
        ((get_ipos true false page limit ca da total rows).calls.map StoreCall.text)
        = ((get_ipos true false page limit cb db total rows).calls.map StoreCall.text) := by
  have h1 : (filterQuery ca da).1 = (filterQuery cb db).1 := by
    simp only [filterQuery, hc, hd]
  have h2 : count_query ca da = count_query cb db := by
    simp only [count_query, h1]
  refine ⟨h1, h2, ?_⟩
  intro page limit total rows
  simp [get_ipos, h1, h2]

/-- Witness for C5: two different nonempty company filters yield the same
page-query text. -/
theorem c5_sql_text_independent_of_filter_values_witness :
    (filterQuery (some ("Acme")) none).1 = (filterQuery (some ("Zeta")) none).1 :=
  (c5_sql_text_independent_of_filter_values (some ("Acme")) none (some ("Zeta")) none
      (by decide) (by decide)).1

/-- C5 counterexample to the claim as stated: the requests `/ipos?company=`
and `/ipos?company=A` both supply the company filter (both values present),
yet the SQL text differs, because `if company:` treats the empty string as
absent. -/
theorem c5_empty_string_filter_changes_sql :
    ((some ("") : Option String)).isSome = ((some ("A") : Option String)).isSome
    ∧ (filterQuery (some ("")) none).1 ≠ (filterQuery (some ("A")) none).1 := by
  decide

/-- C6: for every combination of optional filters the COUNT query is
`SELECT COUNT(*)` followed by exactly the FROM/WHERE clause of the page
query, and `get_ipos` executes it with exactly the filter parameters the
page query also receives (the page query merely appends `limit` and
`offset`). -/
theorem c6_count_query_same_where_and_params (company date : Option String) :
    count_query company date = "SELECT COUNT(*)" ++ whereSuffix company date
    ∧ (filterQuery company date).1
        = "SELECT filing_date, company_name, pdf_urls" ++ whereSuffix company date
    ∧ ∀ (page limit total : Nat) (rows : List Row),
        (get_ipos true false page limit company date total rows).calls
        = [⟨count_query company date, (filterQuery company date).2⟩,
           ⟨(filterQuery company date).1 ++ " ORDER BY id DESC LIMIT %s OFFSET %s",
            (filterQuery company date).2
              ++ [SqlParam.pint (limit : Int),
                  SqlParam.pint (((page - 1) * limit : Nat) : Int)]⟩] := by
  refine ⟨?_, ?_, ?_⟩
  · simp only [count_query, filterQuery, whereSuffix]
    cases truthy company <;> cases truthy date <;> decide
  · simp only [filterQuery, whereSuffix]
    cases truthy company <;> cases truthy date <;> decide
  · intro page limit total rows
    rfl

/-- C7: every handler that obtains a store connection closes it before
returning, on success, not-found and exception paths alike, for `/ipos`,
`/ipos/{id}`, `/ipos/latest` and `/health`. -/
theorem c7_connection_closed_on_every_path (connOk qFails : Bool)
    (page limit : Nat) (company date : Option String) (total : Nat) (rows : List Row)
    (ipo_id : Int) (db : List Row) (limit2 : Nat) (rows2 : List Row) (r c : Bool) :
    ((get_ipos connOk qFails page limit company date total rows).connOpened = true →
        (get_ipos connOk qFails page limit company date total rows).connClosed = true)
    ∧ ((get_ipo_by_id connOk qFails ipo_id db).connOpened = true →
        (get_ipo_by_id connOk qFails ipo_id db).connClosed = true)
    ∧ ((get_latest_ipos connOk qFails limit2 rows2).connOpened = true →
        (get_latest_ipos connOk qFails limit2 rows2).connClosed = true)
    ∧ ((health_check r c).connOpened = true → (health_check r c).connClosed = true) := by
  refine ⟨?_, ?_, ?_, ?_⟩
  · cases connOk <;> cases qFails <;> simp [get_ipos]
  · cases connOk <;> cases qFails <;>
      cases hf : db.find? (fun x => x.id == ipo_id) <;>
        simp [get_ipo_by_id, hf]
  · cases connOk <;> cases qFails <;> simp [get_latest_ipos]
  · cases r <;> cases c <;> simp [health_check, get_database_connection]

/-- Witness for C7: concrete success and failure paths all close the
connection they opened. -/
theorem c7_connection_closed_on_every_path_witness :
    (get_ipos true false 1 50 none none 0 []).connClosed = true
    ∧ (get_ipo_by_id true true 1 exDb).connClosed = true
    ∧ (get_latest_ipos true false 10 exRows5).connClosed = true
    ∧ (health_check false true).connClosed = true :=
  ⟨(c7_connection_closed_on_every_path true false 1 50 none none 0 [] 1 [] 10 [] true
      true).1 rfl,
   (c7_connection_closed_on_every_path true true 1 50 none none 0 [] 1 exDb 10 [] true
      true).2.1 rfl,
   (c7_connection_closed_on_every_path true false 1 50 none none 0 [] 1 [] 10 exRows5
      false true).2.2.1 rfl,
   (c7_connection_closed_on_every_path true false 1 50 none none 0 [] 1 [] 10 [] false
      true).2.2.2 rfl⟩

/-- C1: the request `GET /ipos/latest` never reaches `get_latest_ipos`: the
route `/ipos/{ipo_id}` is registered first and captures the path, the
segment `latest` fails integer coercion, and the application answers 422 —
while the shadowed handler itself would have returned `{count, data}` with
the five most recent records. -/
theorem c1_latest_route_shadowed :
    matchRoute [("ipos" : String), ("latest" : String)] = some Route.ipoById
    ∧ pyInt ("latest") = none
    ∧ iposSubStatus ("latest") true false exDb exRows5 = 422
    ∧ (get_latest_ipos true false 5 exRows5).resp
        = Outcome.ok { count := 5, data := exRows5.map formatRow } := by
  decide

end SebiApi
